import Mathlib

/-!
Verification of the data-preparation pipeline of the Ad-Spent-ROI-Prediction
repository: a shallow embedding of `src/components/data_cleaning.py` and
`src/components/data_ingestion.py`, followed by theorems about the embedded
operations.

Modelling choices:
* A pandas DataFrame is modelled as a list of column names together with a
  list of rows; each row carries its index label (pandas default RangeIndex
  labels are the positions at construction time) and its list of cell values.
  A missing cell (NaN / absent dict key) is the dedicated scalar
  `Value.missing`.
* `DataFrame.dropna` embeds `data.dropna()` with pandas defaults
  (axis=0, how=any): it keeps exactly the rows whose cells contain no
  missing value, preserving column names and index labels.
* The MongoDB client is an external collaborator; it is modelled as a
  `Store` record of two fallible operations (constructing a client from a
  uri, and fetching all documents of a named collection).  `ingest` is
  embedded as a function of the store and the connection-details dict that
  returns, besides the `Except` result, the number of client constructions
  and fetches performed and the fault logged at error level, so that
  "no connection attempted", "no retry" and "logged then re-raised" are
  expressible.
-/

namespace AdSpentROI

/-- A scalar cell of a tabular dataset: numeric, string, boolean, or the
missing marker (pandas NaN / absent document field). -/
inductive Value where
  | int (n : Int)
  | str (s : String)
  | bool (b : Bool)
  | missing
deriving DecidableEq, Repr

/-- Whether a cell is the missing marker. -/
def Value.isMissing : Value → Bool
  | .missing => true
  | _ => false

/-- A tabular dataset: ordered column names and ordered rows; each row is an
index label paired with the list of cell values (one per column). -/
structure DataFrame where
  columns : List String
  rows : List (Nat × List Value)
deriving DecidableEq, Repr

/-- A row contains at least one missing value. -/
def rowHasMissing (vals : List Value) : Bool :=
  vals.any Value.isMissing

/-- Embedding of pandas `DataFrame.dropna()` with default arguments: drop
every row that contains at least one missing value; columns and the index
labels of the retained rows are unchanged. -/
def DataFrame.dropna (df : DataFrame) : DataFrame :=
  { columns := df.columns
    rows := df.rows.filter (fun r => !rowHasMissing r.2) }

/-- Embedding of `DropMissingValuesStrategy.clean` from
`src/components/data_cleaning.py`: `return data.dropna()`. -/
def DropMissingValuesStrategy.clean (data : DataFrame) : DataFrame :=
  data.dropna

/-- Embedding of a call to `DropMissingValuesStrategy.clean` with its effects
made explicit.  The strategy object has no attributes, so its state is
`Unit`; `data.dropna()` is called with `inplace` left at its default
`False`, so it returns a fresh frame and leaves the argument object as it
was.  The triple returned is (value returned to the caller, strategy state
after the call, state of the argument object after the call). -/
def DropMissingValuesStrategy.cleanCall (strategyState : Unit) (data : DataFrame) :
    DataFrame × Unit × DataFrame :=
  (data.dropna, strategyState, data)

/-- A fault signalled to the caller: the `ValueError` raised by the
validation step, or an arbitrary exception of the underlying client,
identified by a code and a message. -/
inductive Fault where
  | valueError (msg : String)
  | pyException (code : Nat) (msg : String)
deriving DecidableEq, Repr

/-- A MongoDB document: a mapping from field names to scalar values. -/
abbrev Record := List (String × Value)

/-- Python dict `.get`: the value at the first matching key, else `None`. -/
def dictGet (d : List (String × String)) (k : String) : Option String :=
  (d.find? (fun p => p.1 == k)).map Prod.snd

/-- The `connection_details` dict: configuration keys mapped to strings. -/
abbrev ConnectionDetails := List (String × String)

/-- Field lookup used when pandas builds a frame from a list of dicts: the
value of the field if the document has it, else the missing marker. -/
def recordGet (rec : Record) (field : String) : Value :=
  match rec.find? (fun p => p.1 == field) with
  | some p => p.2
  | none => Value.missing

/-- Append a field name if it is not already present. -/
def insertField (acc : List String) (k : String) : List String :=
  if acc.contains k then acc else acc ++ [k]

/-- Union of the field names of a list of documents, in order of first
appearance — the column set pandas infers for `pd.DataFrame(data)`. -/
def unionFields (records : List Record) : List String :=
  records.foldl (fun acc rec => rec.foldl (fun a p => insertField a p.1) acc) []

/-- Embedding of `pd.DataFrame(data)` for a list of documents: columns are
the union of the field names, one row per document in order, labelled by
position, with the missing marker for absent fields. -/
def recordsToDataFrame (records : List Record) : DataFrame :=
  let cols := unionFields records
  { columns := cols
    rows := records.enum.map (fun p => (p.1, cols.map (fun c => recordGet p.2 c))) }

/-- Embedding of `df.drop(columns=[name])`: remove the named column and the
corresponding cell of every row. -/
def DataFrame.dropColumn (df : DataFrame) (name : String) : DataFrame :=
  { columns := df.columns.filter (fun c => c != name)
    rows := df.rows.map (fun r =>
      (r.1, ((df.columns.zip r.2).filter (fun q => q.1 != name)).map Prod.snd)) }

/-- Embedding of the reserved-identifier handling in `ingest`:
`if '_id' in df.columns: df.drop(columns=['_id'], inplace=True)`. -/
def dropIdIfPresent (df : DataFrame) : DataFrame :=
  if df.columns.contains "_id" then df.dropColumn "_id" else df

/-- The external document store: constructing a client from a uri
(`MongoClient(uri)`) and fetching every document of a named collection
(`list(database[d][c].find())`).  Either operation may fail with an
arbitrary fault. -/
structure Store where
  connect : String → Except Fault Nat
  fetchAll : Nat → String → String → Except Fault (List Record)

/-- Decidable equality for `Except` values, needed to compare outcomes. -/
instance instDecEqExcept {ε α : Type} [DecidableEq ε] [DecidableEq α] :
    DecidableEq (Except ε α) := fun x y =>
  match x, y with
  | .ok a, .ok b =>
      if h : a = b then .isTrue (by rw [h])
      else .isFalse (fun hh => h (by cases hh; rfl))
  | .error a, .error b =>
      if h : a = b then .isTrue (by rw [h])
      else .isFalse (fun hh => h (by cases hh; rfl))
  | .ok _, .error _ => .isFalse (fun hh => by cases hh)
  | .error _, .ok _ => .isFalse (fun hh => by cases hh)

/-- Observable outcome of one `ingest` call: the value returned or fault
raised, the number of client constructions, the number of collection
fetches, and the fault logged at error level, if any. -/
structure IngestOutcome where
  result : Except Fault DataFrame
  connectCalls : Nat
  fetchCalls : Nat
  errorLog : Option Fault
deriving DecidableEq, Repr

/-- The message of the `ValueError` raised by the validation step (quotes of
the source text elided). -/
def missingDetailsMsg : String :=
  "Missing connection details. Ensure uri, database, and collection are provided."

/-- Outcome when validation fails: the `ValueError` is raised before any
client is constructed, caught by the surrounding handler, logged at error
level and re-raised. -/
def configFailureOutcome : IngestOutcome :=
  { result := .error (.valueError missingDetailsMsg)
    connectCalls := 0
    fetchCalls := 0
    errorLog := some (.valueError missingDetailsMsg) }

/-- Embedding of `MongoDBIngestionStrategy.ingest` from
`src/components/data_ingestion.py`: read `uri`, `database`, `collection`
from the dict with `.get`; if any is absent or empty
(`if not all([uri, database_name, collection_name])`) raise `ValueError`;
otherwise construct a client, fetch every document, convert to a frame,
drop the reserved `_id` column if present, and return.  Any exception is
logged at error level and re-raised unchanged by the `except` block. -/
def MongoDBIngestionStrategy.ingest (store : Store) (connection_details : ConnectionDetails) :
    IngestOutcome :=
  match dictGet connection_details "uri", dictGet connection_details "database",
      dictGet connection_details "collection" with
  | some uri, some database_name, some collection_name =>
    if uri != "" && database_name != "" && collection_name != "" then
      match store.connect uri with
      | .error e =>
          { result := .error e, connectCalls := 1, fetchCalls := 0, errorLog := some e }
      | .ok client =>
        match store.fetchAll client database_name collection_name with
        | .error e =>
            { result := .error e, connectCalls := 1, fetchCalls := 1, errorLog := some e }
        | .ok data =>
            { result := .ok (dropIdIfPresent (recordsToDataFrame data))
              connectCalls := 1
              fetchCalls := 1
              errorLog := none }
    else configFailureOutcome
  | _, _, _ => configFailureOutcome

/-- An ingestion strategy, as the context object sees it: a behaviour that
maps connection details to an outcome. -/
abbrev Strategy := ConnectionDetails → IngestOutcome

/-- Embedding of the `DataIngestor` context class: it holds exactly one
strategy reference. -/
structure DataIngestor where
  strategy : Strategy

/-- Embedding of `DataIngestor.set_strategy`: replace the held strategy
(the method only logs and assigns, no validation). -/
def DataIngestor.set_strategy (_ingestor : DataIngestor) (s : Strategy) : DataIngestor :=
  { strategy := s }

/-- Embedding of `DataIngestor.ingest_data`: delegate to the held
strategy. -/
def DataIngestor.ingest_data (ingestor : DataIngestor) (cd : ConnectionDetails) :
    IngestOutcome :=
  ingestor.strategy cd

/-- A configuration key is absent from the dict or mapped to the empty
string — the condition under which Python `all` sees a falsy entry. -/
def missingOrEmpty (cd : ConnectionDetails) (k : String) : Prop :=
  dictGet cd k = none ∨ dictGet cd k = some ""

/-- The dataset of the concrete scenario in the specification: columns
`[a, b]`, rows `[(1, missing), (2, 3)]`. -/
def exC8Input : DataFrame :=
  { columns := ["a", "b"]
    rows := [(0, [Value.int 1, Value.missing]), (1, [Value.int 2, Value.int 3])] }

/-- A dataset in which every row contains a missing value. -/
def allMissingDF : DataFrame :=
  { columns := ["a"]
    rows := [(0, [Value.missing]), (1, [Value.missing])] }

/-- A store that accepts every connection and returns an empty collection. -/
def okEmptyStore : Store :=
  { connect := fun _ => .ok 0
    fetchAll := fun _ _ _ => .ok [] }

/-- Two sample documents: the first carries the reserved `_id` field, the
second does not. -/
def sampleRecords : List Record :=
  [[("_id", Value.str "x1"), ("spend", Value.int 10)],
   [("roi", Value.int 2)]]

/-- A store that accepts every connection and returns `sampleRecords`. -/
def sampleStore : Store :=
  { connect := fun _ => .ok 0
    fetchAll := fun _ _ _ => .ok sampleRecords }

/-- A store whose connection step always fails. -/
def downStore : Store :=
  { connect := fun _ => .error (.pyException 111 "connection refused")
    fetchAll := fun _ _ _ => .error (.pyException 111 "connection refused") }

/-- A complete, non-empty connection-details dict. -/
def goodDetails : ConnectionDetails :=
  [("uri", "mongodb://localhost"), ("database", "ads"), ("collection", "spend")]

/-- A connection-details dict with the `uri` key absent. -/
def badDetails : ConnectionDetails :=
  [("database", "ads"), ("collection", "spend")]

/-- A fixed successful outcome, used as the behaviour of one test strategy. -/
def outcomeA : IngestOutcome :=
  { result := .ok { columns := ["x"], rows := [(0, [Value.int 1])] }
    connectCalls := 1
    fetchCalls := 1
    errorLog := none }

/-- A different fixed successful outcome, distinguishable from `outcomeA`. -/
def outcomeB : IngestOutcome :=
  { result := .ok { columns := [], rows := [] }
    connectCalls := 1
    fetchCalls := 1
    errorLog := none }

/-- A strategy that always produces `outcomeA`. -/
def strategyA : Strategy := fun _ => outcomeA

/-- A strategy that always produces `outcomeB`. -/
def strategyB : Strategy := fun _ => outcomeB

/-! Helper lemmas shared by the claim theorems. -/

/-- Dropping a column does not change the number of rows. -/
theorem dropColumn_rows_length (df : DataFrame) (name : String) :
    (df.dropColumn name).rows.length = df.rows.length := by
  simp [DataFrame.dropColumn]

/-- Dropping the reserved column, when present, does not change the number
of rows. -/
theorem dropIdIfPresent_rows_length (df : DataFrame) :
    (dropIdIfPresent df).rows.length = df.rows.length := by
  unfold dropIdIfPresent
  split
  · exact dropColumn_rows_length df "_id"
  · rfl

/-- The frame built from a list of documents has one row per document. -/
theorem recordsToDataFrame_rows_length (records : List Record) :
    (recordsToDataFrame records).rows.length = records.length := by
  simp [recordsToDataFrame, List.enum_length]

/-- After the reserved-identifier handling, `_id` is never a column. -/
theorem id_not_mem_dropIdIfPresent (df : DataFrame) :
    "_id" ∉ (dropIdIfPresent df).columns := by
  unfold dropIdIfPresent
  split
  · intro hmem
    have h := List.mem_filter.mp hmem
    simp at h
  · next hcond =>
    intro hmem
    exact hcond (List.elem_iff.mpr hmem)

/-- Reduction of `ingest` when all three keys are present and non-empty and
both external steps succeed. -/
theorem ingest_eq_success (store : Store) (cd : ConnectionDetails)
    (u d c : String) (client : Nat) (records : List Record)
    (hu : dictGet cd "uri" = some u) (hd : dictGet cd "database" = some d)
    (hc : dictGet cd "collection" = some c)
    (hu0 : u ≠ "") (hd0 : d ≠ "") (hc0 : c ≠ "")
    (hconn : store.connect u = .ok client)
    (hfetch : store.fetchAll client d c = .ok records) :
    MongoDBIngestionStrategy.ingest store cd =
      { result := .ok (dropIdIfPresent (recordsToDataFrame records))
        connectCalls := 1
        fetchCalls := 1
        errorLog := none } := by
  unfold MongoDBIngestionStrategy.ingest
  have hcond : (u != "" && d != "" && c != "") = true := by
    simp only [Bool.and_eq_true, bne_iff_ne, ne_eq]
    exact ⟨⟨hu0, hd0⟩, hc0⟩
  simp [hu, hd, hc, hcond, hconn, hfetch]

/-- Reduction of `ingest` when validation passes but the client construction
fails: the fault is logged and re-raised, and no fetch happens. -/
theorem ingest_eq_connect_error (store : Store) (cd : ConnectionDetails)
    (u d c : String) (e : Fault)
    (hu : dictGet cd "uri" = some u) (hd : dictGet cd "database" = some d)
    (hc : dictGet cd "collection" = some c)
    (hu0 : u ≠ "") (hd0 : d ≠ "") (hc0 : c ≠ "")
    (hconn : store.connect u = .error e) :
    MongoDBIngestionStrategy.ingest store cd =
      { result := .error e, connectCalls := 1, fetchCalls := 0, errorLog := some e } := by
  unfold MongoDBIngestionStrategy.ingest
  have hcond : (u != "" && d != "" && c != "") = true := by
    simp only [Bool.and_eq_true, bne_iff_ne, ne_eq]
    exact ⟨⟨hu0, hd0⟩, hc0⟩
  simp [hu, hd, hc, hcond, hconn]

/-- Reduction of `ingest` when validation and connection succeed but the
fetch fails: the fault is logged and re-raised, after exactly one fetch. -/
theorem ingest_eq_fetch_error (store : Store) (cd : ConnectionDetails)
    (u d c : String) (client : Nat) (e : Fault)
    (hu : dictGet cd "uri" = some u) (hd : dictGet cd "database" = some d)
    (hc : dictGet cd "collection" = some c)
    (hu0 : u ≠ "") (hd0 : d ≠ "") (hc0 : c ≠ "")
    (hconn : store.connect u = .ok client)
    (hfetch : store.fetchAll client d c = .error e) :
    MongoDBIngestionStrategy.ingest store cd =
      { result := .error e, connectCalls := 1, fetchCalls := 1, errorLog := some e } := by
  unfold MongoDBIngestionStrategy.ingest
  have hcond : (u != "" && d != "" && c != "") = true := by
    simp only [Bool.and_eq_true, bne_iff_ne, ne_eq]
    exact ⟨⟨hu0, hd0⟩, hc0⟩
  simp [hu, hd, hc, hcond, hconn, hfetch]

/-- Reduction of `ingest` when some key is absent or empty: the validation
`ValueError` outcome, with no client construction and no fetch. -/
theorem ingest_eq_configFailure (store : Store) (cd : ConnectionDetails)
    (h : missingOrEmpty cd "uri" ∨ missingOrEmpty cd "database" ∨
      missingOrEmpty cd "collection") :
    MongoDBIngestionStrategy.ingest store cd = configFailureOutcome := by
  unfold MongoDBIngestionStrategy.ingest
  rcases hu : dictGet cd "uri" with _ | u <;>
    rcases hd : dictGet cd "database" with _ | d <;>
      rcases hc : dictGet cd "collection" with _ | c <;>
        simp only [missingOrEmpty, hu, hd, hc, reduceCtorEq, Option.some.injEq,
          false_or, or_false] at h ⊢ <;>
        try rfl
  rcases h with h | h | h <;> (subst h; simp)

/-! Claim theorems. -/

/-- C2: For every dataset D, `DropMissingValuesStrategy.clean D` leaves the
column set unchanged, its rows form a sublist of the rows of D (so the
relative order of retained rows is preserved), a row is retained exactly
when it belongs to D and contains no missing value, and when every row of D
contains a missing value the result is empty. -/
theorem drop_missing_clean_characterization (D : DataFrame) :
    (DropMissingValuesStrategy.clean D).columns = D.columns ∧
    List.Sublist (DropMissingValuesStrategy.clean D).rows D.rows ∧
    (∀ p : Nat × List Value,
      p ∈ (DropMissingValuesStrategy.clean D).rows ↔
        p ∈ D.rows ∧ rowHasMissing p.2 = false) ∧
    ((∀ p ∈ D.rows, rowHasMissing p.2 = true) →
      (DropMissingValuesStrategy.clean D).rows = []) := by
  refine ⟨rfl, List.filter_sublist D.rows, ?_, ?_⟩
  · intro p
    constructor
    · intro hp
      have h := List.mem_filter.mp hp
      exact ⟨h.1, by simpa using h.2⟩
    · intro hp
      exact List.mem_filter.mpr ⟨hp.1, by simp [hp.2]⟩
  · intro h
    exact List.filter_eq_nil_iff.mpr (fun a ha => by simp [h a ha])

/-- Witness for C2: on a dataset whose rows all contain a missing value,
the cleaned result has no rows. -/
theorem drop_missing_clean_characterization_witness :
    (DropMissingValuesStrategy.clean allMissingDF).rows = [] :=
  (drop_missing_clean_characterization allMissingDF).2.2.2 (by decide)

/-- C3: Cleaning with `DropMissingValuesStrategy` is idempotent:
`clean (clean D) = clean D` for every dataset D. -/
theorem drop_missing_clean_idempotent (D : DataFrame) :
    DropMissingValuesStrategy.clean (DropMissingValuesStrategy.clean D) =
      DropMissingValuesStrategy.clean D := by
  unfold DropMissingValuesStrategy.clean DataFrame.dropna
  simp only [DataFrame.mk.injEq, true_and]
  exact List.filter_eq_self.mpr (fun a ha => (List.mem_filter.mp ha).2)

/-- C8: On the dataset with columns `[a, b]` and rows
`[(1, missing), (2, 3)]`, cleaning returns exactly the single row
`(2, 3)` (with its original index label 1). -/
theorem drop_missing_concrete_scenario :
    DropMissingValuesStrategy.clean exC8Input =
      { columns := ["a", "b"], rows := [(1, [Value.int 2, Value.int 3])] } := by
  rfl

/-- C9: A `DropMissingValuesStrategy.clean` call is a pure, stateless
transformation: it leaves the argument dataset object unchanged, leaves the
strategy state unchanged, returns exactly the cleaned value, and calls on
equal inputs return equal outputs regardless of the strategy state. -/
theorem clean_call_pure_stateless (s1 s2 : Unit) (D E : DataFrame) (h : D = E) :
    (DropMissingValuesStrategy.cleanCall s1 D).2.2 = D ∧
    (DropMissingValuesStrategy.cleanCall s1 D).2.1 = s1 ∧
    (DropMissingValuesStrategy.cleanCall s1 D).1 = DropMissingValuesStrategy.clean D ∧
    (DropMissingValuesStrategy.cleanCall s1 D).1 =
      (DropMissingValuesStrategy.cleanCall s2 E).1 := by
  subst h
  exact ⟨rfl, rfl, rfl, rfl⟩

/-- Witness for C9 at the concrete scenario dataset. -/
theorem clean_call_pure_stateless_witness :
    (DropMissingValuesStrategy.cleanCall () exC8Input).2.2 = exC8Input ∧
    (DropMissingValuesStrategy.cleanCall () exC8Input).2.1 = () ∧
    (DropMissingValuesStrategy.cleanCall () exC8Input).1 =
      DropMissingValuesStrategy.clean exC8Input ∧
    (DropMissingValuesStrategy.cleanCall () exC8Input).1 =
      (DropMissingValuesStrategy.cleanCall () exC8Input).1 :=
  clean_call_pure_stateless () () exC8Input exC8Input rfl

/-- C10: Every row retained by cleaning keeps its original index label: the
retained (label, values) pair occurs as such among the rows of D.  On the
concrete scenario dataset the single retained row sits at position 0 of the
result but still carries its pre-cleaning label 1, so labels are not
renumbered to consecutive positions. -/
theorem clean_preserves_row_labels :
    (∀ (D : DataFrame) (p : Nat × List Value),
        p ∈ (DropMissingValuesStrategy.clean D).rows → p ∈ D.rows) ∧
    (DropMissingValuesStrategy.clean exC8Input).rows.map Prod.fst = [1] := by
  constructor
  · intro D p hp
    exact (List.mem_filter.mp hp).1
  · rfl

/-- Witness for C10: the retained row of the concrete scenario, looked up by
its pre-cleaning label, is a row of the input. -/
theorem clean_preserves_row_labels_witness :
    (1, [Value.int 2, Value.int 3]) ∈ exC8Input.rows :=
  clean_preserves_row_labels.1 exC8Input (1, [Value.int 2, Value.int 3]) (by decide)

/-- C1: Whenever one of the keys uri, database, collection is absent from
the connection details or mapped to the empty string, `ingest` fails with
the validation `ValueError` (the configuration error) before any I/O: no
MongoDB client is constructed and no fetch is performed. -/
theorem mongo_ingest_config_error_before_io (store : Store) (cd : ConnectionDetails)
    (h : missingOrEmpty cd "uri" ∨ missingOrEmpty cd "database" ∨
      missingOrEmpty cd "collection") :
    (MongoDBIngestionStrategy.ingest store cd).result =
      .error (.valueError missingDetailsMsg) ∧
    (MongoDBIngestionStrategy.ingest store cd).connectCalls = 0 ∧
    (MongoDBIngestionStrategy.ingest store cd).fetchCalls = 0 := by
  rw [ingest_eq_configFailure store cd h]
  exact ⟨rfl, rfl, rfl⟩

/-- Witness for C1: a dict lacking the uri key fails with the configuration
error and never touches the store. -/
theorem mongo_ingest_config_error_before_io_witness :
    (MongoDBIngestionStrategy.ingest okEmptyStore badDetails).result =
      .error (.valueError missingDetailsMsg) ∧
    (MongoDBIngestionStrategy.ingest okEmptyStore badDetails).connectCalls = 0 ∧
    (MongoDBIngestionStrategy.ingest okEmptyStore badDetails).fetchCalls = 0 :=
  mongo_ingest_config_error_before_io okEmptyStore badDetails (Or.inl (Or.inl (by decide)))

/-- C4: For a reachable store returning any list of records, `ingest`
returns a dataset with exactly one row per record and no `_id` column,
whatever the number of records that carry the `_id` field. -/
theorem mongo_ingest_row_count_and_id_absent (store : Store) (cd : ConnectionDetails)
    (u d c : String) (client : Nat) (records : List Record)
    (hu : dictGet cd "uri" = some u) (hd : dictGet cd "database" = some d)
    (hc : dictGet cd "collection" = some c)
    (hu0 : u ≠ "") (hd0 : d ≠ "") (hc0 : c ≠ "")
    (hconn : store.connect u = .ok client)
    (hfetch : store.fetchAll client d c = .ok records) :
    (MongoDBIngestionStrategy.ingest store cd).result =
      .ok (dropIdIfPresent (recordsToDataFrame records)) ∧
    (dropIdIfPresent (recordsToDataFrame records)).rows.length = records.length ∧
    "_id" ∉ (dropIdIfPresent (recordsToDataFrame records)).columns := by
  refine ⟨?_, ?_, id_not_mem_dropIdIfPresent _⟩
  · rw [ingest_eq_success store cd u d c client records hu hd hc hu0 hd0 hc0 hconn hfetch]
  · rw [dropIdIfPresent_rows_length, recordsToDataFrame_rows_length]

/-- Witness for C4: two sample documents, one of which carries `_id`. -/
theorem mongo_ingest_row_count_and_id_absent_witness :
    (MongoDBIngestionStrategy.ingest sampleStore goodDetails).result =
      .ok (dropIdIfPresent (recordsToDataFrame sampleRecords)) ∧
    (dropIdIfPresent (recordsToDataFrame sampleRecords)).rows.length =
      sampleRecords.length ∧
    "_id" ∉ (dropIdIfPresent (recordsToDataFrame sampleRecords)).columns :=
  mongo_ingest_row_count_and_id_absent sampleStore goodDetails
    "mongodb://localhost" "ads" "spend" 0 sampleRecords rfl rfl rfl
    (by decide) (by decide) (by decide) rfl rfl

/-- C5: After `set_strategy s2`, the next `ingest_data` call returns exactly
the outcome of `s2` on the given details; when the two strategies are
distinguishable at those details, the outcome differs from that of the
previously held strategy, which is no longer consulted. -/
theorem set_strategy_switches_behavior (ingestor : DataIngestor) (s2 : Strategy)
    (cd : ConnectionDetails) (hdist : ingestor.strategy cd ≠ s2 cd) :
    (ingestor.set_strategy s2).ingest_data cd = s2 cd ∧
    (ingestor.set_strategy s2).ingest_data cd ≠ ingestor.strategy cd :=
  ⟨rfl, fun h => hdist h.symm⟩

/-- Witness for C5: swapping from a strategy producing `outcomeA` to one
producing `outcomeB`. -/
theorem set_strategy_switches_behavior_witness :
    (DataIngestor.ingest_data
      (DataIngestor.set_strategy { strategy := strategyA } strategyB) goodDetails) =
      strategyB goodDetails ∧
    (DataIngestor.ingest_data
      (DataIngestor.set_strategy { strategy := strategyA } strategyB) goodDetails) ≠
      ({ strategy := strategyA } : DataIngestor).strategy goodDetails :=
  set_strategy_switches_behavior { strategy := strategyA } strategyB goodDetails
    (by decide)

/-- C6: When the client construction or the fetch fails with an underlying
fault, `ingest` logs that very fault at error level and re-signals it to
the caller unchanged; it never returns a value, performs at most one
connection and one fetch (no retry), and produces no partial dataset. -/
theorem mongo_ingest_propagates_fault (store : Store) (cd : ConnectionDetails)
    (u d c : String) (e : Fault)
    (hu : dictGet cd "uri" = some u) (hd : dictGet cd "database" = some d)
    (hc : dictGet cd "collection" = some c)
    (hu0 : u ≠ "") (hd0 : d ≠ "") (hc0 : c ≠ "")
    (hfail : store.connect u = .error e ∨
      ∃ client, store.connect u = .ok client ∧ store.fetchAll client d c = .error e) :
    (MongoDBIngestionStrategy.ingest store cd).result = .error e ∧
    (MongoDBIngestionStrategy.ingest store cd).errorLog = some e ∧
    (MongoDBIngestionStrategy.ingest store cd).connectCalls = 1 ∧
    (MongoDBIngestionStrategy.ingest store cd).fetchCalls ≤ 1 ∧
    ∀ df : DataFrame, (MongoDBIngestionStrategy.ingest store cd).result ≠ .ok df := by
  rcases hfail with hconn | ⟨client, hconn, hfetch⟩
  · rw [ingest_eq_connect_error store cd u d c e hu hd hc hu0 hd0 hc0 hconn]
    exact ⟨rfl, rfl, rfl, Nat.zero_le 1, fun df h => by cases h⟩
  · rw [ingest_eq_fetch_error store cd u d c client e hu hd hc hu0 hd0 hc0 hconn hfetch]
    exact ⟨rfl, rfl, rfl, Nat.le_refl 1, fun df h => by cases h⟩

/-- Witness for C6: a store whose connection step fails with an underlying
fault. -/
theorem mongo_ingest_propagates_fault_witness :
    (MongoDBIngestionStrategy.ingest downStore goodDetails).result =
      .error (.pyException 111 "connection refused") ∧
    (MongoDBIngestionStrategy.ingest downStore goodDetails).errorLog =
      some (.pyException 111 "connection refused") ∧
    (MongoDBIngestionStrategy.ingest downStore goodDetails).connectCalls = 1 ∧
    (MongoDBIngestionStrategy.ingest downStore goodDetails).fetchCalls ≤ 1 ∧
    ∀ df : DataFrame,
      (MongoDBIngestionStrategy.ingest downStore goodDetails).result ≠ .ok df :=
  mongo_ingest_propagates_fault downStore goodDetails
    "mongodb://localhost" "ads" "spend" (.pyException 111 "connection refused")
    rfl rfl rfl (by decide) (by decide) (by decide) (Or.inl rfl)

/-- C7: Over a reachable store whose collection is empty, `ingest` returns
the empty dataset: zero rows (and no columns). -/
theorem mongo_ingest_empty_collection (store : Store) (cd : ConnectionDetails)
    (u d c : String) (client : Nat)
    (hu : dictGet cd "uri" = some u) (hd : dictGet cd "database" = some d)
    (hc : dictGet cd "collection" = some c)
    (hu0 : u ≠ "") (hd0 : d ≠ "") (hc0 : c ≠ "")
    (hconn : store.connect u = .ok client)
    (hfetch : store.fetchAll client d c = .ok []) :
    (MongoDBIngestionStrategy.ingest store cd).result =
      .ok { columns := [], rows := [] } ∧
    ∀ df : DataFrame, (MongoDBIngestionStrategy.ingest store cd).result = .ok df →
      df.rows.length = 0 := by
  have h1 := ingest_eq_success store cd u d c client [] hu hd hc hu0 hd0 hc0 hconn hfetch
  constructor
  · rw [h1]
    rfl
  · intro df hdf
    rw [h1] at hdf
    injection hdf with h2
    rw [← h2]
    rfl

/-- Witness for C7: the store returning an empty collection. -/
theorem mongo_ingest_empty_collection_witness :
    (MongoDBIngestionStrategy.ingest okEmptyStore goodDetails).result =
      .ok { columns := [], rows := [] } ∧
    ∀ df : DataFrame,
      (MongoDBIngestionStrategy.ingest okEmptyStore goodDetails).result = .ok df →
        df.rows.length = 0 :=
  mongo_ingest_empty_collection okEmptyStore goodDetails
    "mongodb://localhost" "ads" "spend" 0 rfl rfl rfl
    (by decide) (by decide) (by decide) rfl rfl

end AdSpentROI
